import Mathlib

/-!
Verification development for the stray-cat adoption web client.

JavaScript strings are modelled as `List Char`; plain JSON records become
structures; each DOM/fetch handler is embedded as a pure function from its
inputs to the data it computes and the UI effects it emits.
-/

namespace CatWeb

/-- The 26 basic-latin case pairs, the only case mapping exercised by this
code base. -/
def lowerPairs : List (Char × Char) :=
  [('A', 'a'), ('B', 'b'), ('C', 'c'), ('D', 'd'), ('E', 'e'), ('F', 'f'),
   ('G', 'g'), ('H', 'h'), ('I', 'i'), ('J', 'j'), ('K', 'k'), ('L', 'l'),
   ('M', 'm'), ('N', 'n'), ('O', 'o'), ('P', 'p'), ('Q', 'q'), ('R', 'r'),
   ('S', 's'), ('T', 't'), ('U', 'u'), ('V', 'v'), ('W', 'w'), ('X', 'x'),
   ('Y', 'y'), ('Z', 'z')]

/-- Embeds `String.prototype.toLowerCase` restricted to the basic latin
letters: each ASCII capital maps to its lower-case form via `lowerPairs`,
every other character is unchanged. -/
def jsToLowerChar (c : Char) : Char :=
  match lowerPairs.find? (fun p => p.1 == c) with
  | some p => p.2
  | none => c

/-- Embeds `String.prototype.toLowerCase` on a whole string. -/
def jsToLower (s : List Char) : List Char :=
  s.map jsToLowerChar

/-- Embeds `String.prototype.trim`: drop whitespace from both ends
(part_000 line 1104 `event.target.value.trim()`). -/
def jsTrim (s : List Char) : List Char :=
  ((s.dropWhile Char.isWhitespace).reverse.dropWhile Char.isWhitespace).reverse

/-- Embeds `query.split(/\s+/).filter(Boolean)` (part_000 line 1129): split at each
whitespace character and keep the nonempty chunks, which is exactly the
list of maximal whitespace-free runs. -/
def queryTerms (q : List Char) : List (List Char) :=
  (q.splitOnP Char.isWhitespace).filter (fun t => !t.isEmpty)

/-- Does `hay` start with `needle`?  Helper for `jsIncludes`. -/
def leadingMatch : List Char → List Char → Bool
  | _, [] => true
  | [], _ :: _ => false
  | h :: hs, n :: ns => h == n && leadingMatch hs ns

/-- Embeds `String.prototype.includes`: `needle` occurs contiguously in `hay`
(part_000 line 1132 `haystack.includes(term)`). -/
def jsIncludes (hay needle : List Char) : Bool :=
  match hay with
  | [] => leadingMatch [] needle
  | c :: hs => leadingMatch (c :: hs) needle || jsIncludes hs needle

/-- Embeds `String.prototype.indexOf(char, fromIdx)` scanning of the suffix,
returning the absolute index of the first hit; `none` models JS `-1`. -/
def indexOfFrom : List Char → Char → Nat → Option Nat
  | [], _, _ => none
  | t :: ts, c, i => if t == c then some i else indexOfFrom ts c (i + 1)

/-- Embeds `text.indexOf(c, fromIdx)` (part_000 line 1139). -/
def jsIndexOf (text : List Char) (c : Char) (fromIdx : Nat) : Option Nat :=
  indexOfFrom (text.drop fromIdx) c fromIdx

/-- The loop body of `isFuzzyMatch` (part_000 lines 1137-1144): walk the
query characters, each time resuming the `indexOf` scan one past the
previous hit; a miss returns `false`. -/
def isFuzzyMatchAux (text : List Char) : List Char → Nat → Bool
  | [], _ => true
  | c :: qs, textIndex =>
    match jsIndexOf text c textIndex with
    | none => false
    | some j => isFuzzyMatchAux text qs (j + 1)

/-- Embeds `isFuzzyMatch(text, query)` (part_000 lines 1136-1146). -/
def isFuzzyMatch (text query : List Char) : Bool :=
  isFuzzyMatchAux text query 0

/-- Reference greedy subsequence scan on suffixes, used to relate
`isFuzzyMatch` to `List.Sublist`. -/
def fuzzySimple : List Char → List Char → Bool
  | _, [] => true
  | [], _ :: _ => false
  | t :: ts, q :: qs => if q == t then fuzzySimple ts qs else fuzzySimple ts (q :: qs)

/-- A cat record as consumed by the catalogue page (the fields read by
`matchesQuery`, `createCatCard` and the hardcoded fallback data). -/
structure Cat where
  id : Nat
  name : List Char
  age : List Char
  gender : List Char
  description : List Char
  special_notes : List Char
  unique_markings : List Char
  last_known_location : List Char
  image : List Char
  image_path : List Char
  sterilized : Bool
  is_adopted : Bool
deriving DecidableEq

/-- The lowercased haystack built by `matchesQuery` (part_000 lines
1119-1127): the seven searchable fields joined by single spaces, then
lowercased by `normalizeSearchText`. -/
def catHaystack (c : Cat) : List Char :=
  jsToLower (List.intercalate [' ']
    [c.name, c.age, c.gender, c.description, c.special_notes,
     c.unique_markings, c.last_known_location])

/-- Embeds `matchesQuery(cat, query)` (part_000 lines 1118-1134). -/
def matchesQuery (c : Cat) (query : List Char) : Bool :=
  let haystack := catHaystack c
  let terms := queryTerms (jsToLower query)
  if terms.isEmpty then true
  else terms.all (fun term => jsIncludes haystack term || isFuzzyMatch haystack term)

/-- The search-input handler installed by `setupCatSearch` (part_000 lines
1100-1112): trim the raw input; an empty result restores the whole list,
otherwise filter by `matchesQuery`.  Returns the new `filteredCats`. -/
def searchHandler (allCats : List Cat) (inputValue : List Char) : List Cat :=
  let query := jsTrim inputValue
  if query.isEmpty then allCats
  else allCats.filter (fun c => matchesQuery c query)

/-- The spec's notion of a contiguous-substring occurrence of `needle` in
`hay`. -/
def occursContiguously (needle hay : List Char) : Prop :=
  ∃ pre post, hay = pre ++ needle ++ post

/-- The spec's per-term condition on the haystack `H`: the term occurs as a
contiguous substring of `H`, or as a (not necessarily contiguous)
subsequence of `H`. -/
def specTermOk (H t : List Char) : Prop :=
  occursContiguously t H ∨ t.Sublist H

/-- The spec's description of which cats a query keeps: every
whitespace-separated term of the lowercased query satisfies `specTermOk`
on the cat's lowercased joined haystack. -/
def specCatMatches (c : Cat) (rawQuery : List Char) : Prop :=
  ∀ t ∈ queryTerms (jsToLower rawQuery), specTermOk (catHaystack c) t

/-- Executable form of `specCatMatches`, used as the filter function in the
refinement statement; `specCatMatchesB_iff` proves it decides
`specCatMatches`. -/
def specCatMatchesB (c : Cat) (rawQuery : List Char) : Bool :=
  (queryTerms (jsToLower rawQuery)).all
    (fun t => jsIncludes (catHaystack c) t || fuzzySimple (catHaystack c) t)

/-- The first hardcoded cat record installed by `fallbackToHardcodedData`
(part_000 lines 963-974); fields absent from the literal (`image_path`,
`is_adopted`) are modelled as empty / false, matching JS `undefined`
falsiness in the reading code. -/
def hardcodedFirstCat : Cat :=
  ⟨1, ("小花").toList, ("2岁").toList, ("雌性").toList,
   ("性格温顺，喜欢与人亲近").toList, ([] : List Char),
   ("额头有心形花纹").toList, ([] : List Char),
   ("assets/cat1.jpg").toList, ([] : List Char), true, false⟩

/-- The four hardcoded cat records installed by `fallbackToHardcodedData`
(part_000 lines 962-1011), modelled as for `hardcodedFirstCat`. -/
def hardcodedCats : List Cat :=
  [hardcodedFirstCat,
   ⟨2, ("小黑").toList, ("1.5岁").toList, ("雄性").toList,
    ("活泼好动，好奇心强").toList, ([] : List Char), ([] : List Char),
    ([] : List Char), ("assets/cat2.jpg").toList, ([] : List Char), false, false⟩,
   ⟨3, ("小白").toList, ("3岁").toList, ("雌性").toList,
    ("优雅安静，适合家庭饲养").toList, ([] : List Char), ([] : List Char),
    ([] : List Char), ("assets/cat3.jpg").toList, ([] : List Char), true, false⟩,
   ⟨4, ("小橘").toList, ("1岁").toList, ("雄性").toList,
    ("贪吃可爱，非常亲人").toList, ([] : List Char), ([] : List Char),
    ([] : List Char), ("assets/cat4.jpg").toList, ([] : List Char), false, false⟩]

/-- The trailing while-loop of `appendMobileLog` (part_000 lines 1669-1671):
`while (mobileLogEl.children.length > 5) removeChild(lastChild)`. -/
def trimLogLoop {α : Type} (l : List α) : List α :=
  if l.length > 5 then trimLogLoop l.dropLast else l
termination_by l.length
decreasing_by
  simp only [List.length_dropLast]
  omega

/-- Embeds `appendMobileLog` (part_000 lines 1663-1672) on the element-present
path: prepend the new entry, then trim from the back while more than 5
entries remain. -/
def appendMobileLog {α : Type} (log : List α) (entry : α) : List α :=
  trimLogLoop (entry :: log)

/-- The `[A-Za-z]` character class of the `validatePassword` regex. -/
def asciiLetter (c : Char) : Bool :=
  ('A' ≤ c && c ≤ 'Z') || ('a' ≤ c && c ≤ 'z')

/-- The `\d` character class. -/
def asciiDigit (c : Char) : Bool :=
  '0' ≤ c && c ≤ '9'

/-- The eight symbols admitted by the `validatePassword` body class. -/
def passwordSymbols : List Char :=
  ['@', '$', '!', '%', '*', '#', '?', '&']

/-- Embeds `validatePassword` (auth.js lines 152-157): the anchored regex with two
lookaheads accepts exactly the strings of length at least 8 drawn from
letters, digits and the eight symbols that contain at least one letter and
at least one digit. -/
def validatePassword (p : List Char) : Bool :=
  decide (8 ≤ p.length)
    && p.all (fun c => asciiLetter c || asciiDigit c || decide (c ∈ passwordSymbols))
    && p.any asciiLetter && p.any asciiDigit

/-- The `[^\s@]` character class of the `validateEmail` regex. -/
def emailChar (c : Char) : Bool :=
  !c.isWhitespace && c != '@'

/-- Embeds `validateEmail` (auth.js lines 147-150): embeds the anchored regex
test for local-part, at-sign, and a domain remainder with an interior dot:
exactly one at-sign, a nonempty whitespace-free local part before it, and
a nonempty whitespace-free remainder containing a dot that is neither its
first nor its last character. -/
def validateEmail (e : List Char) : Bool :=
  let localPart := e.takeWhile (fun c => c != '@')
  let rest := (e.dropWhile (fun c => c != '@')).drop 1
  decide (e.count '@' = 1) && (!localPart.isEmpty) && localPart.all emailChar
    && (!rest.isEmpty) && rest.all emailChar && (rest.drop 1).dropLast.contains '.'

/-- Outcome of an auth form submission: a client-side rejection via
`alert`, or an HTTP request with its JSON payload fields. -/
inductive AuthAction where
  | alertMsg (msg : List Char)
  | request (url : List Char) (payload : List (List Char))
deriving DecidableEq

/-- Does the submission reach the network? -/
def issuesRequest : AuthAction → Bool
  | .alertMsg _ => false
  | .request _ _ => true

def fillAllFieldsMsg : List Char := ("请填写所有字段").toList

def invalidEmailOrPasswordMsg : List Char := ("请输入有效的邮箱名或密码").toList

def passwordMismatchMsg : List Char := ("两次输入的密码不一致").toList

/-- Embeds `handleRegister` (auth.js lines 160-224) up to the point a request is
issued: presence, email-format, password-strength and confirmation checks
each reject with an alert and no network call; otherwise POST
`/api/register` carries the four fields. -/
def handleRegister (name email password confirmPassword : List Char) : AuthAction :=
  if name.isEmpty || email.isEmpty || password.isEmpty || confirmPassword.isEmpty then
    .alertMsg fillAllFieldsMsg
  else if !validateEmail email then .alertMsg invalidEmailOrPasswordMsg
  else if !validatePassword password then .alertMsg invalidEmailOrPasswordMsg
  else if password ≠ confirmPassword then .alertMsg passwordMismatchMsg
  else .request (("/api/register").toList) [name, email, password, confirmPassword]

/-- Embeds `handleLogin` (auth.js lines 227-244) composed with `login` (246-257):
empty fields or an invalid email alert without a network call; otherwise
POST `/api/login` carries the two fields. -/
def handleLogin (email password : List Char) : AuthAction :=
  if email.isEmpty || password.isEmpty then .alertMsg fillAllFieldsMsg
  else if !validateEmail email then .alertMsg invalidEmailOrPasswordMsg
  else .request (("/api/login").toList) [email, password]

/-- Decimal rendering of a JS number interpolated into a template. -/
def natToChars (n : Nat) : List Char :=
  (Nat.repr n).toList

/-- Every URL pattern passed to `fetch` anywhere in the client, with `:id`
standing for the interpolated path parameter:
`/api/current_user` (auth.js 15; part_000 107, 412, 758; part_001 67, 325),
`/api/register` (auth.js 190), `/api/login` (auth.js 248),
`/api/logout` (auth.js 341; part_000 221, 876; part_001 179),
`/api/user/forgot-password` (auth.js 394),
`/api/user/reset-password` (auth.js 476),
`/api/content/:id` (part_000 27, 678),
`/api/cats` (part_000 286, 941; part_001 228),
`/api/cats/recognize` (part_000 543, 1815),
`/api/cats/:id/adopt` (part_000 1211). -/
def clientFetchEndpoints : List (List Char) :=
  [("/api/current_user").toList, ("/api/register").toList, ("/api/login").toList,
   ("/api/logout").toList, ("/api/user/forgot-password").toList,
   ("/api/user/reset-password").toList, ("/api/content/:id").toList,
   ("/api/cats").toList, ("/api/cats/recognize").toList,
   ("/api/cats/:id/adopt").toList]

/-- The five endpoints the spec claims are the whole client surface. -/
def specClaimedEndpoints : List (List Char) :=
  [("/api/login").toList, ("/api/register").toList, ("/api/cats").toList,
   ("/api/cats/recognize").toList, ("/api/cats/:id/adopt").toList]

/-- The endpoints the client also requests but the spec's list omits. -/
def unlistedClientEndpoints : List (List Char) :=
  [("/api/current_user").toList, ("/api/logout").toList,
   ("/api/user/forgot-password").toList, ("/api/user/reset-password").toList,
   ("/api/content/:id").toList]

/-- A single UI-visible effect of an error path: an `alert` dialog, a
`console.error` line, a message written into an inline status element, the
login modal being opened, or a further network request. -/
inductive UIEffect where
  | alertMsg (msg : List Char)
  | consoleError (tag : List Char)
  | statusText (elementId : List Char) (msg : List Char)
  | openLoginModal
  | fetchRequest (url : List Char)
deriving DecidableEq

/-- Catch branch of `handleRegister` (auth.js 221-223). -/
def registerCatchEffects (m : List Char) : List UIEffect :=
  [.alertMsg m]

/-- Catch branch of `login` (auth.js 275-277). -/
def loginCatchEffects (m : List Char) : List UIEffect :=
  [.alertMsg m]

/-- Catch branch of `checkCurrentUser` (auth.js 29-31). -/
def checkCurrentUserCatchEffects : List UIEffect :=
  [.consoleError (("Error checking current user:").toList)]

/-- Catch branch of `handleForgotPassword` (auth.js 419-424): a console
line and an error message in the `forgotPasswordStatus` div. -/
def forgotPasswordCatchEffects : List UIEffect :=
  [.consoleError (("Error:").toList),
   .statusText (("forgotPasswordStatus").toList) (("发送失败，请稍后重试").toList)]

/-- Catch branch of `handleResetPassword` (auth.js 507-512). -/
def resetPasswordCatchEffects : List UIEffect :=
  [.consoleError (("Error:").toList),
   .statusText (("resetPasswordStatus").toList) (("密码重置失败，请稍后重试").toList)]

/-- Catch branch of `fetchContent` (part_000 693-695). -/
def fetchContentCatchEffects : List UIEffect :=
  [.consoleError (("Error fetching content:").toList)]

/-- Catch branch of `loadCatData` (part_000 948-952); the data fallback it
triggers is modelled by `loadCatDataOnError`. -/
def loadCatDataCatchEffects : List UIEffect :=
  [.consoleError (("Error loading cats:").toList)]

/-- Catch branch of `submitAdoptionForm` (part_000 1232-1235). -/
def adoptionCatchEffects (m : List Char) : List UIEffect :=
  [.consoleError (("Adoption error:").toList),
   .statusText (("adoptionStatus").toList) m]

/-- Catch branch of `recognizeCatImage` (part_000 1840-1845) for failures
other than the 401 sentinel. -/
def recognitionCatchEffects (m : List Char) : List UIEffect :=
  [.consoleError (("Recognition error:").toList),
   .statusText (("recognitionStatus").toList) m]

/-- The 401 error-result path of `recognizeCatImage` (part_000 1821-1827):
a status message and the login modal. -/
def recognition401Effects : List UIEffect :=
  [.statusText (("recognitionStatus").toList)
     (("请先登录后再使用猫脸识别功能。").toList),
   .openLoginModal]

/-- All modelled error-path effects, with `m` the dynamic error message.-/
def clientErrorEffects (m : List Char) : List UIEffect :=
  registerCatchEffects m ++ loginCatchEffects m ++ checkCurrentUserCatchEffects ++
    forgotPasswordCatchEffects ++ resetPasswordCatchEffects ++
    fetchContentCatchEffects ++ loadCatDataCatchEffects ++
    adoptionCatchEffects m ++ recognitionCatchEffects m ++ recognition401Effects

/-- The spec's claimed error channels: alert dialogs and console logging
only. -/
def isAlertOrConsole : UIEffect → Bool
  | .alertMsg _ => true
  | .consoleError _ => true
  | _ => false

/-- The amended error channels: anything except issuing another network
request. -/
def isErrorSurfaceChannel : UIEffect → Bool
  | .fetchRequest _ => false
  | _ => true

/-- Is the effect a network request (a retry would be one)? -/
def isFetchEffect : UIEffect → Bool
  | .fetchRequest _ => true
  | _ => false

/-- The catalogue module state touched by `loadCatData`:`allCats` and
`filteredCats` (part_000 672-673). -/
structure CatalogState where
  allCats : List Cat
  filteredCats : List Cat
deriving DecidableEq

/-- The catch branch of `loadCatData` (part_000 948-952) calls
`fallbackToHardcodedData` (part_000 956-1016): when the `.cat-list`
container exists it replaces `allCats`/`filteredCats` with the hardcoded
records and renders them; without the container it returns before touching
state. -/
def loadCatDataOnError (hasCatListEl : Bool) (s : CatalogState) : CatalogState :=
  if hasCatListEl then ⟨hardcodedCats, hardcodedCats⟩ else s

/-- JS `x || d` on display strings: the fixed placeholder replaces an
absent or empty field. -/
def jsOrStr (s fallback : List Char) : List Char :=
  if s.isEmpty then fallback else s

def tplImgOpen : List Char := ("<img src=\"/").toList

def tplImgAlt : List Char := ("\" alt=\"").toList

def tplImgErr : List Char :=
  ("\" onerror=\"this.parentElement.innerHTML='<div class=\\'image-placeholder\\' style=\\'background-color: #f0f0f0; height: 200px; display: flex; align-items: center; justify-content: center;\\'><span>猫咪图片</span></div>';\">").toList

def tplImgPlaceholder : List Char :=
  ("<div class=\"image-placeholder\" style=\"background-color: #f0f0f0; height: 200px; display: flex; align-items: center; justify-content: center;\">\n            <span>猫咪图片</span>\n        </div>").toList

/-- The `imageHtml` chosen by `createCatCard` (part_000 1040-1048). -/
def imageHtmlFor (c : Cat) : List Char :=
  if c.image_path.isEmpty then tplImgPlaceholder
  else tplImgOpen ++ c.image_path ++ tplImgAlt ++ c.name ++ tplImgErr

def tplHead : List Char := ("\n        ").toList

def tplInfoOpen : List Char := ("\n        <div class=\"info\">\n            <h3>").toList

def tplAfterName : List Char := ("</h3>\n            ").toList

def tplAdoptedBadge : List Char :=
  ("<span class=\"cat-status cat-status-adopted\">已被领养</span>").toList

def tplAgeLabel : List Char :=
  ("\n            <p><strong>年龄:</strong> ").toList

def tplGenderLabel : List Char :=
  ("</p>\n            <p><strong>性别:</strong> ").toList

def tplDescOpen : List Char := ("</p>\n            <p>").toList

def tplNoDesc : List Char := ("暂无描述").toList

def tplSterLabel : List Char :=
  ("</p>\n            <p><strong>绝育情况:</strong> ").toList

def tplSterYes : List Char := ("已绝育").toList

def tplSterNo : List Char := ("未绝育/未知").toList

def tplMarkLabel : List Char :=
  ("</p>\n            <p><strong>显著特征:</strong> ").toList

def tplNone : List Char := ("暂无").toList

def tplNotesLabel : List Char :=
  ("</p>\n            <p><strong>特别说明:</strong> ").toList

def tplLocLabel : List Char :=
  ("</p>\n            <p><strong>最近位置:</strong> ").toList

def tplNoLoc : List Char := ("暂无记录").toList

def tplButtonOpen : List Char :=
  ("</p>\n            <button class=\"adopt-btn\" data-cat-id=\"").toList

def tplButtonMid : List Char := ("\" ").toList

def tplDisabled : List Char := ("disabled").toList

def tplButtonClose : List Char := (">").toList

def tplAdoptedLabel : List Char := ("已被领养").toList

def tplAdoptLabel : List Char := ("我要领养").toList

def tplButtonEnd : List Char := ("</button>\n        </div>\n    ").toList

/-- The full `card.innerHTML` template of `createCatCard` (part_000
1036-1066), with each interpolation spliced in place. -/
def catCardHtml (c : Cat) : List Char :=
  tplHead ++ imageHtmlFor c ++ tplInfoOpen ++ c.name ++ tplAfterName
    ++ (if c.is_adopted then tplAdoptedBadge else []) ++ tplAgeLabel ++ c.age
    ++ tplGenderLabel ++ c.gender ++ tplDescOpen ++ jsOrStr c.description tplNoDesc
    ++ tplSterLabel ++ (if c.sterilized then tplSterYes else tplSterNo)
    ++ tplMarkLabel ++ jsOrStr c.unique_markings tplNone
    ++ tplNotesLabel ++ jsOrStr c.special_notes tplNone
    ++ tplLocLabel ++ jsOrStr c.last_known_location tplNoLoc
    ++ tplButtonOpen ++ natToChars c.id ++ tplButtonMid
    ++ (if c.is_adopted then tplDisabled else []) ++ tplButtonClose
    ++ (if c.is_adopted then tplAdoptedLabel else tplAdoptLabel) ++ tplButtonEnd

/-- The string form a JS boolean would take if rendered verbatim. -/
def jsBoolChars (b : Bool) : List Char :=
  if b then ("true").toList else ("false").toList

/-- The cat record nested in a recognition match, with the fields read by
`renderRecognitionResults` (part_000 1867-1884). -/
structure RecCat where
  name : List Char
  identification_code : List Char
  age : List Char
  gender : List Char
  sterilized : Bool
  microchipped : Bool
  unique_markings : List Char
  special_notes : List Char
  last_known_location : List Char
deriving DecidableEq

/-- A recognition match record as consumed by `renderRecognitionResults`
(part_000 1858-1893).  `similarity` is an IEEE double in JS, modelled as a
rational (exact on every representable double); `none` models a field that
fails the `typeof ... === number` check, and `cat = none` the absent
archive record. -/
structure RecognitionMatch where
  matched : Bool
  similarity : Option Rat
  hamming_distance : Option Int
  reference_image_path : List Char
  cat : Option RecCat
deriving DecidableEq

/-- Embeds JS `Math.round`: the nearest integer, ties toward positive
infinity. -/
def jsRound (q : Rat) : Int :=
  (q + 1 / 2).floor

/-- Decimal rendering of a JS integer number interpolated into a
template. -/
def intToChars (i : Int) : List Char :=
  i.repr.toList

/-- The `similarityText` of part_000 1862-1863:
`Math.round(match.similarity * 100)` followed by a percent sign when the
field is a number, otherwise the fixed placeholder. -/
def similarityTextOf (m : RecognitionMatch) : List Char :=
  match m.similarity with
  | some q => intToChars (jsRound (q * 100)) ++ ("%").toList
  | none => ("未知").toList

/-- The `distanceText` of part_000 1865. -/
def distanceTextOf (m : RecognitionMatch) : List Char :=
  match m.hamming_distance with
  | some d => intToChars d
  | none => ("—").toList

def rtplBadgeMatched : List Char :=
  ("<span class=\"recognition-badge\" style=\"background-color:#d4edda;color:#155724;\">可能是已登记的猫咪</span>").toList

def rtplBadgePending : List Char :=
  ("<span class=\"recognition-badge\">待确认</span>").toList

/-- The `matchBadge` of part_000 1864: a fixed fragment chosen by the
boolean `matched`. -/
def matchBadgeFor (m : RecognitionMatch) : List Char :=
  if m.matched then rtplBadgeMatched else rtplBadgePending

def rtplRefEnd : List Char :=
  ("\" style=\"width:100%;max-width:240px;border-radius:6px;margin-top:8px;\">").toList

def rtplRefAltPH : List Char := ("参考图").toList

/-- The `referenceImage` of part_000 1874: an img tag when a reference
image path is present, otherwise the empty string. -/
def referenceImageFor (m : RecognitionMatch) (rc : RecCat) : List Char :=
  if m.reference_image_path.isEmpty then []
  else tplImgOpen ++ m.reference_image_path ++ tplImgAlt
    ++ jsOrStr rc.name rtplRefAltPH ++ rtplRefEnd

def rtplHead : List Char := ("\n                <h3>").toList

def rtplAfterName : List Char := ("</h3>\n                <p>").toList

def rtplSimLabel : List Char :=
  ("<span class=\"recognition-badge\">匹配度 ").toList

def rtplDistLabel : List Char :=
  ("</span><span class=\"recognition-badge\">哈希距离 ").toList

def rtplCodeLabel : List Char :=
  ("</span></p>\n                <p><strong>编号:</strong> ").toList

def rtplAgeLabel : List Char :=
  ("</p>\n                <p><strong>年龄:</strong> ").toList

def rtplGenderLabel : List Char := (" · <strong>性别:</strong> ").toList

def rtplSterLabel : List Char :=
  ("</p>\n                <p><strong>绝育情况:</strong> ").toList

def rtplChipLabel : List Char := (" · <strong>芯片:</strong> ").toList

def rtplChipYes : List Char := ("有芯片").toList

def rtplChipNo : List Char := ("无芯片/未知").toList

def rtplMarkLabel : List Char :=
  ("</p>\n                <p><strong>显著特征:</strong> ").toList

def rtplLocLabel : List Char :=
  ("</p>\n                <p><strong>最新位置:</strong> ").toList

def rtplNotesLabel : List Char :=
  ("</p>\n                <p><strong>档案备注:</strong> ").toList

def rtplBeforeRef : List Char := ("</p>\n                ").toList

def rtplTail : List Char := ("\n            ").toList

def rtplUnnamed : List Char := ("未命名猫咪").toList

def rtplUnknown : List Char := ("未知").toList

def rtplNoNotes : List Char := ("暂无说明").toList

def rtplNoCatHead : List Char :=
  ("\n                <h3>未找到匹配的档案</h3>\n                <p>").toList

def rtplNoCatBody : List Char :=
  ("</span></p>\n                <p>当前数据库中暂无与该照片高度相似的猫咪，您可以联系管理员补充档案。</p>\n            ").toList

/-- The `card.innerHTML` built by `renderRecognitionResults` when the
match carries an archive record (part_000 1876-1886). -/
def recognitionCatCardHtml (m : RecognitionMatch) (rc : RecCat) : List Char :=
  rtplHead ++ jsOrStr rc.name rtplUnnamed ++ rtplAfterName
    ++ matchBadgeFor m ++ rtplSimLabel ++ similarityTextOf m ++ rtplDistLabel
    ++ distanceTextOf m ++ rtplCodeLabel ++ jsOrStr rc.identification_code tplNone
    ++ rtplAgeLabel ++ jsOrStr rc.age rtplUnknown ++ rtplGenderLabel
    ++ jsOrStr rc.gender rtplUnknown ++ rtplSterLabel
    ++ (if rc.sterilized then tplSterYes else tplSterNo) ++ rtplChipLabel
    ++ (if rc.microchipped then rtplChipYes else rtplChipNo) ++ rtplMarkLabel
    ++ jsOrStr rc.unique_markings tplNoDesc ++ rtplLocLabel
    ++ jsOrStr rc.last_known_location tplNoLoc ++ rtplNotesLabel
    ++ jsOrStr rc.special_notes rtplNoNotes ++ rtplBeforeRef
    ++ referenceImageFor m rc ++ rtplTail

/-- The `card.innerHTML` built by `renderRecognitionResults` when the
match carries no archive record (part_000 1888-1892). -/
def recognitionNoCatHtml (m : RecognitionMatch) : List Char :=
  rtplNoCatHead ++ matchBadgeFor m ++ rtplSimLabel ++ similarityTextOf m
    ++ rtplDistLabel ++ distanceTextOf m ++ rtplNoCatBody

/-- The per-match card of `renderRecognitionResults` (part_000
1858-1893). -/
def recognitionCardHtml (m : RecognitionMatch) : List Char :=
  match m.cat with
  | some rc => recognitionCatCardHtml m rc
  | none => recognitionNoCatHtml m

/-- A concrete recognition-match record used to exercise the rendering
theorem. -/
def sampleRecCat : RecCat :=
  ⟨("小花").toList, ("BJ-001").toList, ("2岁").toList, ("雌性").toList,
   true, false, ("额头有心形花纹").toList, ([] : List Char), ([] : List Char)⟩

/-- A concrete match carrying `sampleRecCat` with similarity 0.87. -/
def sampleMatch : RecognitionMatch :=
  ⟨true, some (87 / 100 : Rat), some 3, ([] : List Char), some sampleRecCat⟩

theorem drop_cons_step {α : Type} :
    ∀ (i : Nat) (l : List α) (a : α) (s : List α), l.drop i = a :: s → l.drop (i + 1) = s := by
  intro i
  induction i with
  | zero =>
    intro l a s h
    simp only [List.drop_zero] at h
    subst h
    simp
  | succ n ih =>
    intro l a s h
    cases l with
    | nil => simp at h
    | cons b l' =>
      have h' : l'.drop n = a :: s := by simpa using h
      simpa using ih l' a s h'

theorem fuzzyAux_eq (text : List Char) :
    ∀ (s q : List Char) (i : Nat), text.drop i = s →
      isFuzzyMatchAux text q i = fuzzySimple s q := by
  intro s
  induction s with
  | nil =>
    intro q i h
    cases q with
    | nil => rfl
    | cons c qs => simp [isFuzzyMatchAux, jsIndexOf, h, indexOfFrom, fuzzySimple]
  | cons t ts ih =>
    intro q i h
    cases q with
    | nil => rfl
    | cons c qs =>
      have hdrop : text.drop (i + 1) = ts := drop_cons_step i text t ts h
      by_cases hc : c = t
      · subst hc
        have hidx : jsIndexOf text c i = some i := by
          simp [jsIndexOf, h, indexOfFrom]
        simp only [isFuzzyMatchAux, hidx, fuzzySimple, beq_self_eq_true, if_true]
        exact ih qs (i + 1) hdrop
      · have hne : (t == c) = false := by
          simp only [beq_eq_false_iff_ne, ne_eq]
          exact fun hh => hc hh.symm
        have hidx : jsIndexOf text c i = jsIndexOf text c (i + 1) := by
          simp [jsIndexOf, h, indexOfFrom, hne, hdrop]
        have hstep : isFuzzyMatchAux text (c :: qs) i = isFuzzyMatchAux text (c :: qs) (i + 1) := by
          simp only [isFuzzyMatchAux, hidx]
        rw [hstep, ih (c :: qs) (i + 1) hdrop]
        have hne' : (c == t) = false := by simp [hc]
        simp [fuzzySimple, hne']

theorem fuzzySimple_eq_true_iff : ∀ (t q : List Char), fuzzySimple t q = true ↔ q.Sublist t := by
  intro t
  induction t with
  | nil =>
    intro q
    cases q with
    | nil => simp [fuzzySimple]
    | cons c qs => simp [fuzzySimple]
  | cons a ts ih =>
    intro q
    cases q with
    | nil => simp [fuzzySimple]
    | cons c qs =>
      by_cases hc : c = a
      · subst hc
        simp only [fuzzySimple, beq_self_eq_true, if_true]
        rw [ih qs]
        constructor
        · exact fun h => List.Sublist.cons₂ c h
        · intro h
          cases h with
          | cons _ h' => exact (List.Sublist.cons c (List.Sublist.refl qs)).trans h'
          | cons₂ _ h' => exact h'
      · have hne : (c == a) = false := by simp [hc]
        simp only [fuzzySimple, hne, Bool.false_eq_true, if_false]
        rw [ih (c :: qs)]
        constructor
        · exact fun h => List.Sublist.cons a h
        · intro h
          cases h with
          | cons _ h' => exact h'
          | cons₂ _ h' => exact absurd rfl hc

theorem isFuzzyMatch_eq_true_iff (text query : List Char) :
    isFuzzyMatch text query = true ↔ query.Sublist text := by
  rw [isFuzzyMatch, fuzzyAux_eq text text query 0 (by simp), fuzzySimple_eq_true_iff]

theorem leadingMatch_eq_true_iff : ∀ (needle hay : List Char),
    leadingMatch hay needle = true ↔ ∃ rest, hay = needle ++ rest := by
  intro needle
  induction needle with
  | nil =>
    intro hay
    constructor
    · intro _; exact ⟨hay, rfl⟩
    · intro _; cases hay <;> rfl
  | cons n ns ih =>
    intro hay
    cases hay with
    | nil => simp [leadingMatch]
    | cons h hs =>
      simp only [leadingMatch, Bool.and_eq_true, beq_iff_eq, ih hs, List.cons_append,
        List.cons.injEq]
      constructor
      · rintro ⟨rfl, rest, rfl⟩; exact ⟨rest, rfl, rfl⟩
      · rintro ⟨rest, rfl, h2⟩; exact ⟨rfl, rest, h2⟩

theorem jsIncludes_eq_true_iff : ∀ (hay needle : List Char),
    jsIncludes hay needle = true ↔ ∃ pre post, hay = pre ++ needle ++ post := by
  intro hay
  induction hay with
  | nil =>
    intro needle
    cases needle with
    | nil =>
      constructor
      · intro _; exact ⟨[], [], rfl⟩
      · intro _; rfl
    | cons n ns =>
      simp [jsIncludes, leadingMatch, eq_comm, List.append_eq_nil]
  | cons c hs ih =>
    intro needle
    simp only [jsIncludes, Bool.or_eq_true, leadingMatch_eq_true_iff, ih]
    constructor
    · rintro (⟨rest, heq⟩ | ⟨pre, post, heq⟩)
      · exact ⟨[], rest, by simpa using heq⟩
      · exact ⟨c :: pre, post, by simp [heq]⟩
    · rintro ⟨pre, post, heq⟩
      cases pre with
      | nil => exact Or.inl ⟨post, by simpa using heq⟩
      | cons p ps =>
        rw [List.cons_append, List.cons_append] at heq
        injection heq with h1 h2
        subst h1
        exact Or.inr ⟨ps, post, by simpa using h2⟩

theorem wsToLowerChar (c : Char) : (jsToLowerChar c).isWhitespace = c.isWhitespace := by
  unfold jsToLowerChar
  cases hf : lowerPairs.find? (fun p => p.1 == c) with
  | none => rfl
  | some p =>
    have hmem : p ∈ lowerPairs := List.mem_of_find?_eq_some hf
    have hpc : p.1 = c := by
      have := List.find?_some hf
      simpa using this
    have hws : ∀ q ∈ lowerPairs, q.1.isWhitespace = false ∧ q.2.isWhitespace = false := by
      decide
    have h1 := (hws p hmem).1
    have h2 := (hws p hmem).2
    rw [h2, ← hpc, h1]

theorem ws_comp_lower : (Char.isWhitespace ∘ jsToLowerChar) = Char.isWhitespace :=
  funext wsToLowerChar

theorem queryTerms_cons_ws {c : Char} (h : c.isWhitespace = true) (u : List Char) :
    queryTerms (c :: u) = queryTerms u := by
  simp [queryTerms, List.splitOnP_cons, h]

theorem splitOnP_append_ws {p : Char → Bool} {c : Char} (h : p c = true) :
    ∀ u : List Char, (u ++ [c]).splitOnP p = u.splitOnP p ++ [[]] := by
  intro u
  induction u with
  | nil => simp [List.splitOnP_cons, h, List.splitOnP_nil]
  | cons a u' ih =>
    rw [List.cons_append, List.splitOnP_cons, List.splitOnP_cons, ih]
    by_cases hpa : p a = true
    · simp [hpa]
    · simp only [hpa, if_false]
      obtain ⟨h0, t0, he⟩ : ∃ h0 t0, u'.splitOnP p = h0 :: t0 := by
        cases hsp : u'.splitOnP p with
        | nil => exact absurd hsp (List.splitOnP_ne_nil _ u')
        | cons x xs => exact ⟨x, xs, rfl⟩
      rw [he]
      simp

theorem queryTerms_append_ws {c : Char} (h : c.isWhitespace = true) (u : List Char) :
    queryTerms (u ++ [c]) = queryTerms u := by
  simp [queryTerms, splitOnP_append_ws h, List.filter_append]

theorem queryTerms_dropWhile_ws : ∀ u : List Char,
    queryTerms (u.dropWhile Char.isWhitespace) = queryTerms u := by
  intro u
  induction u with
  | nil => rfl
  | cons a u' ih =>
    by_cases h : a.isWhitespace = true
    · rw [List.dropWhile_cons_of_pos h, ih, queryTerms_cons_ws h]
    · rw [List.dropWhile_cons_of_neg h]

theorem queryTerms_trimTrailing : ∀ u : List Char,
    queryTerms ((u.reverse.dropWhile Char.isWhitespace).reverse) = queryTerms u := by
  intro u
  induction u using List.reverseRecOn with
  | nil => rfl
  | append_singleton l a ih =>
    have h1 : (l ++ [a]).reverse = a :: l.reverse := by simp
    by_cases h : a.isWhitespace = true
    · rw [h1, List.dropWhile_cons_of_pos h, ih, queryTerms_append_ws h]
    · rw [h1, List.dropWhile_cons_of_neg h]
      simp

theorem queryTerms_jsTrim (u : List Char) : queryTerms (jsTrim u) = queryTerms u := by
  unfold jsTrim
  rw [queryTerms_trimTrailing, queryTerms_dropWhile_ws]

theorem jsToLower_jsTrim (s : List Char) : jsToLower (jsTrim s) = jsTrim (jsToLower s) := by
  unfold jsToLower jsTrim
  rw [List.dropWhile_map, ← List.map_reverse, List.dropWhile_map, ← List.map_reverse,
    ws_comp_lower]

theorem queryTerms_lower_trim (s : List Char) :
    queryTerms (jsToLower (jsTrim s)) = queryTerms (jsToLower s) := by
  rw [jsToLower_jsTrim, queryTerms_jsTrim]

theorem specCatMatchesB_iff (c : Cat) (q : List Char) :
    specCatMatchesB c q = true ↔ specCatMatches c q := by
  simp only [specCatMatchesB, List.all_eq_true, Bool.or_eq_true, jsIncludes_eq_true_iff,
    fuzzySimple_eq_true_iff, specCatMatches, specTermOk, occursContiguously]

theorem matchesQuery_trim_eq (c : Cat) (input : List Char) :
    matchesQuery c (jsTrim input) = specCatMatchesB c input := by
  have h1 : matchesQuery c (jsTrim input)
      = (queryTerms (jsToLower input)).all
        (fun t => jsIncludes (catHaystack c) t || isFuzzyMatch (catHaystack c) t) := by
    simp only [matchesQuery, queryTerms_lower_trim]
    cases hT : queryTerms (jsToLower input) with
    | nil => simp
    | cons t0 ts => simp
  rw [h1, Bool.eq_iff_iff]
  simp only [List.all_eq_true, Bool.or_eq_true, isFuzzyMatch_eq_true_iff,
    fuzzySimple_eq_true_iff, specCatMatchesB]

/-- C1: the search handler sets `filteredCats` to exactly the cats for
which every whitespace-separated term of the lowercased query occurs as a
contiguous substring of, or as a (not necessarily contiguous) subsequence
of, the lowercase space-joined concatenation of the seven searchable
fields; an empty or all-whitespace query restores the whole of `allCats`.
The second conjunct identifies the executable filter with the spec's
propositional reading. -/
theorem search_handler_matches_spec (cats : List Cat) (input : List Char) :
    searchHandler cats input = cats.filter (fun c => specCatMatchesB c input) ∧
    (∀ c : Cat, specCatMatchesB c input = true ↔ specCatMatches c input) ∧
    (input.all Char.isWhitespace = true → searchHandler cats input = cats) := by
  refine ⟨?_, fun c => specCatMatchesB_iff c input, ?_⟩
  · by_cases he : (jsTrim input).isEmpty = true
    · have hnil : jsTrim input = [] := List.isEmpty_iff.mp he
      have hT : queryTerms (jsToLower input) = [] := by
        have h2 := queryTerms_lower_trim input
        rw [hnil] at h2
        rw [← h2]
        rfl
      rw [show searchHandler cats input = cats by simp [searchHandler, hnil]]
      rw [eq_comm, List.filter_eq_self]
      intro a _
      simp [specCatMatchesB, hT]
    · simp only [searchHandler, if_neg he]
      exact List.filter_congr (fun c _ => matchesQuery_trim_eq c input)
  · intro hws
    have hdw : input.dropWhile Char.isWhitespace = [] :=
      List.dropWhile_eq_nil_iff.mpr (by simpa using List.all_eq_true.mp hws)
    have hnil : jsTrim input = [] := by simp [jsTrim, hdw]
    simp [searchHandler, hnil]

theorem search_handler_matches_spec_witness :
    searchHandler hardcodedCats (("  ").toList) = hardcodedCats :=
  (search_handler_matches_spec hardcodedCats (("  ").toList)).2.2 (by decide)

/-- C9: whenever the term occurs as a contiguous substring of the text,
`isFuzzyMatch` also returns true; consequently the disjunction
`haystack.includes(term) || isFuzzyMatch(haystack, term)` used by
`matchesQuery` is equal to `isFuzzyMatch(haystack, term)` alone. -/
theorem fuzzy_subsumes_includes (text term : List Char) :
    (occursContiguously term text → isFuzzyMatch text term = true) ∧
    (jsIncludes text term || isFuzzyMatch text term) = isFuzzyMatch text term := by
  have himp : occursContiguously term text → isFuzzyMatch text term = true := by
    rintro ⟨pre, post, rfl⟩
    rw [isFuzzyMatch_eq_true_iff, List.append_assoc]
    exact (List.sublist_append_left term post).trans
      (List.sublist_append_right pre (term ++ post))
  refine ⟨himp, ?_⟩
  cases hf : isFuzzyMatch text term with
  | true =>
    simp
  | false =>
    cases hj : jsIncludes text term with
    | false => simp
    | true =>
      have hocc := himp ((jsIncludes_eq_true_iff text term).mp hj)
      rw [hf] at hocc
      exact absurd hocc (by decide)

theorem fuzzy_subsumes_includes_witness :
    isFuzzyMatch (("chat").toList) (("ha").toList) = true :=
  (fuzzy_subsumes_includes (("chat").toList) (("ha").toList)).1
    ⟨("c").toList, ("t").toList, by decide⟩

theorem trimLogLoop_eq_take {α : Type} (l : List α) : trimLogLoop l = l.take 5 := by
  generalize hn : l.length = n
  induction n using Nat.strong_induction_on generalizing l with
  | _ n ih =>
    by_cases h : l.length > 5
    · rw [trimLogLoop, if_pos h, ih (l.dropLast.length) (by simp [List.length_dropLast]; omega)
        l.dropLast rfl]
      rw [List.dropLast_eq_take, List.take_take]
      congr 1
      omega
    · rw [trimLogLoop, if_neg h, List.take_of_length_le (by omega)]

/-- C10: after every call to `appendMobileLog` the log holds at most 5
entries with the newly appended entry first; appending to a log that
already holds 5 entries removes the oldest (last) entry. -/
theorem append_mobile_log_invariant {α : Type} (log : List α) (entry : α) :
    (appendMobileLog log entry).length ≤ 5 ∧
    appendMobileLog log entry = entry :: log.take 4 ∧
    (log.length = 5 → appendMobileLog log entry = entry :: log.dropLast) := by
  have h1 : appendMobileLog log entry = entry :: log.take 4 := by
    rw [appendMobileLog, trimLogLoop_eq_take, List.take_succ_cons]
  refine ⟨?_, h1, ?_⟩
  · rw [h1]
    simp only [List.length_cons, List.length_take]
    omega
  · intro h5
    rw [h1, List.dropLast_eq_take, h5]

theorem append_mobile_log_invariant_witness :
    appendMobileLog ([1, 2, 3, 4, 5] : List Nat) 6
      = 6 :: ([1, 2, 3, 4, 5] : List Nat).dropLast :=
  (append_mobile_log_invariant [1, 2, 3, 4, 5] 6).2.2 (by decide)

/-- C8: `validatePassword p` returns true exactly when `p` has at least 8
characters, every character is an ASCII letter, an ASCII digit or one of
the eight symbols, and `p` contains at least one letter and at least one
digit; in particular any password containing a space is rejected. -/
theorem validatePassword_spec (p : List Char) :
    (validatePassword p = true ↔
      (8 ≤ p.length ∧
       (∀ c ∈ p, (('A' ≤ c ∧ c ≤ 'Z') ∨ ('a' ≤ c ∧ c ≤ 'z')) ∨
         ('0' ≤ c ∧ c ≤ '9') ∨ c ∈ passwordSymbols) ∧
       (∃ c ∈ p, ('A' ≤ c ∧ c ≤ 'Z') ∨ ('a' ≤ c ∧ c ≤ 'z')) ∧
       (∃ c ∈ p, '0' ≤ c ∧ c ≤ '9'))) ∧
    (' ' ∈ p → validatePassword p = false) := by
  have hiff : validatePassword p = true ↔
      (8 ≤ p.length ∧
       (∀ c ∈ p, (('A' ≤ c ∧ c ≤ 'Z') ∨ ('a' ≤ c ∧ c ≤ 'z')) ∨
         ('0' ≤ c ∧ c ≤ '9') ∨ c ∈ passwordSymbols) ∧
       (∃ c ∈ p, ('A' ≤ c ∧ c ≤ 'Z') ∨ ('a' ≤ c ∧ c ≤ 'z')) ∧
       (∃ c ∈ p, '0' ≤ c ∧ c ≤ '9')) := by
    simp only [validatePassword, Bool.and_eq_true, decide_eq_true_eq, List.all_eq_true,
      List.any_eq_true, asciiLetter, asciiDigit, Bool.or_eq_true, and_assoc, or_assoc]
  refine ⟨hiff, ?_⟩
  intro hsp
  cases hv : validatePassword p with
  | false => rfl
  | true =>
    obtain ⟨-, hall, -⟩ := hiff.mp hv
    have h2 := hall ' ' hsp
    revert h2
    decide

theorem validatePassword_spec_witness :
    validatePassword (("pass word1").toList) = false :=
  (validatePassword_spec (("pass word1").toList)).2 (by decide)

/-- C6 counterexample: a login submission with a syntactically invalid
email is rejected client-side by an alert; no request is sent to the
server, refuting the claim that every submission results in a request. -/
theorem login_rejected_without_request :
    issuesRequest (handleLogin (("bad").toList) (("x").toList)) = false := by
  decide

/-- C6 amended: the client validates presence, email format, password
strength and confirmation match before sending; a request is issued
exactly when all client-side validations pass, otherwise the submission is
rejected with an alert and no request; when a request is issued it carries
the form fields unmodified. -/
theorem auth_request_gating (name email password confirmPassword : List Char) :
    (issuesRequest (handleRegister name email password confirmPassword) = true ↔
      (name.isEmpty = false ∧ email.isEmpty = false ∧ password.isEmpty = false ∧
       confirmPassword.isEmpty = false ∧ validateEmail email = true ∧
       validatePassword password = true ∧ password = confirmPassword)) ∧
    (handleRegister name email password confirmPassword
        = AuthAction.request (("/api/register").toList) [name, email, password, confirmPassword]
      ∨ issuesRequest (handleRegister name email password confirmPassword) = false) ∧
    (issuesRequest (handleLogin email password) = true ↔
      (email.isEmpty = false ∧ password.isEmpty = false ∧ validateEmail email = true)) ∧
    (handleLogin email password = AuthAction.request (("/api/login").toList) [email, password]
      ∨ issuesRequest (handleLogin email password) = false) := by
  refine ⟨?_, ?_, ?_, ?_⟩
  · unfold handleRegister
    split_ifs with h1 h2 h3 h4 <;> simp_all [issuesRequest] <;> tauto
  · unfold handleRegister
    split_ifs <;> simp [issuesRequest]
  · unfold handleLogin
    split_ifs with h1 h2 <;> simp_all [issuesRequest] <;> tauto
  · unfold handleLogin
    split_ifs <;> simp [issuesRequest]

theorem auth_request_gating_witness :
    issuesRequest (handleLogin (("a@b.c").toList) (("pw").toList)) = true :=
  (auth_request_gating (("x").toList) (("a@b.c").toList) (("pw").toList)
    (("pw").toList)).2.2.1.mpr (by decide)

/-- C2 counterexample: the client fetches `/api/current_user`, an endpoint
absent from the spec's list, so the claimed endpoint set is not exact. -/
theorem current_user_endpoint_unlisted :
    (("/api/current_user").toList) ∈ clientFetchEndpoints ∧
    (("/api/current_user").toList) ∉ specClaimedEndpoints := by
  refine ⟨?_, ?_⟩ <;> decide

/-- C2 amended: the endpoints the client requests via fetch are exactly
the five the spec lists together with the five further ones it omits
(current_user, logout, forgot-password, reset-password, content). -/
theorem client_endpoint_inventory :
    clientFetchEndpoints.Nodup ∧
    (∀ e ∈ clientFetchEndpoints,
      e ∈ specClaimedEndpoints ∨ e ∈ unlistedClientEndpoints) ∧
    (∀ e ∈ specClaimedEndpoints, e ∈ clientFetchEndpoints) ∧
    (∀ e ∈ unlistedClientEndpoints, e ∈ clientFetchEndpoints) := by
  refine ⟨?_, ?_, ?_, ?_⟩ <;> decide

theorem client_endpoint_inventory_witness :
    (("/api/login").toList) ∈ clientFetchEndpoints :=
  client_endpoint_inventory.2.2.1 (("/api/login").toList) (by decide)

/-- C3 counterexample: the catch branch of `handleForgotPassword` reports
the failure through the `forgotPasswordStatus` div, so alert dialogs and
console logging are not the only error channels. -/
theorem forgot_password_error_uses_status_div :
    forgotPasswordCatchEffects.all isAlertOrConsole = false ∧
    UIEffect.statusText (("forgotPasswordStatus").toList)
      (("发送失败，请稍后重试").toList) ∈ forgotPasswordCatchEffects := by
  refine ⟨?_, ?_⟩ <;> decide

/-- C3 amended: every modelled error path reports only through alert
dialogs, console logging, inline status-element messages or (for the
unauthenticated recognition case) opening the login modal; no error path
issues a further network request. -/
theorem error_channels_amended (m : List Char) :
    (clientErrorEffects m).all isErrorSurfaceChannel = true := rfl

/-- C4 counterexample: the error handler of the `/api/cats` load
substitutes the hardcoded cat list for the missing response, so failed
requests are not always left without substitute data. -/
theorem load_cats_error_substitutes :
    (loadCatDataOnError true ⟨[], []⟩).allCats = hardcodedCats ∧
    hardcodedCats ≠ [] := by
  refine ⟨rfl, ?_⟩
  decide

/-- C4 amended: no error handler retries the failed request, and the only
substitution of alternative data is `loadCatData` falling back to the
hardcoded records when the catalogue container exists. -/
theorem no_retry_and_unique_fallback (m : List Char) :
    (clientErrorEffects m).all (fun e => !isFetchEffect e) = true ∧
    (∀ (b : Bool) (s : CatalogState),
      loadCatDataOnError b s = s ∨
      loadCatDataOnError b s = ⟨hardcodedCats, hardcodedCats⟩) := by
  refine ⟨rfl, ?_⟩
  intro b s
  cases b
  · exact Or.inl rfl
  · exact Or.inr rfl

set_option maxRecDepth 8192 in
/-- C5 counterexample: the first hardcoded cat has `sterilized = true`,
yet its card shows the fixed label 已绝育 and the boolean value itself
never appears in the rendered card: the field is transformed rather than
rendered unmodified, and the label is not an absent-field placeholder. -/
theorem sterilized_not_rendered_verbatim :
    hardcodedFirstCat.sterilized = true ∧
    occursContiguously tplSterYes (catCardHtml hardcodedFirstCat) ∧
    ¬ occursContiguously (jsBoolChars hardcodedFirstCat.sterilized)
        (catCardHtml hardcodedFirstCat) := by
  refine ⟨rfl, ?_, ?_⟩
  · exact (jsIncludes_eq_true_iff _ _).mp (by decide)
  · intro h
    have h1 := (jsIncludes_eq_true_iff (catCardHtml hardcodedFirstCat)
      (jsBoolChars hardcodedFirstCat.sterilized)).mpr h
    have h2 : jsIncludes (catCardHtml hardcodedFirstCat)
        (jsBoolChars hardcodedFirstCat.sterilized) = false := by decide
    rw [h2] at h1
    exact absurd h1 (by decide)

theorem occursHead (x B : List Char) : occursContiguously x (x ++ B) :=
  ⟨[], B, by simp⟩

theorem occursTail {x B : List Char} (A : List Char)
    (h : occursContiguously x B) : occursContiguously x (A ++ B) := by
  obtain ⟨p, q, hB⟩ := h
  exact ⟨A ++ p, q, by simp [hB, List.append_assoc]⟩

/-- C5 amended: every string-valued display field of a Cat or a
RecognitionMatch record is rendered into its card template unmodified,
with a fixed placeholder substituted when an optional field is absent or
empty; the boolean fields (`sterilized`, `is_adopted`, `microchipped`,
`matched`) are instead mapped to fixed labels or fragments, and the
numeric `similarity` and `hamming_distance` fields are reformatted before
display (similarity as a rounded percentage, an absent number as a fixed
placeholder). -/
theorem card_templates_render_fields (c : Cat) (m : RecognitionMatch) :
    (occursContiguously c.name (catCardHtml c) ∧
     occursContiguously c.age (catCardHtml c) ∧
     occursContiguously c.gender (catCardHtml c) ∧
     occursContiguously (jsOrStr c.description tplNoDesc) (catCardHtml c) ∧
     occursContiguously (jsOrStr c.unique_markings tplNone) (catCardHtml c) ∧
     occursContiguously (jsOrStr c.special_notes tplNone) (catCardHtml c) ∧
     occursContiguously (jsOrStr c.last_known_location tplNoLoc) (catCardHtml c) ∧
     occursContiguously (if c.sterilized then tplSterYes else tplSterNo)
       (catCardHtml c) ∧
     occursContiguously (if c.is_adopted then tplAdoptedLabel else tplAdoptLabel)
       (catCardHtml c)) ∧
    (∀ rc : RecCat, m.cat = some rc →
      (occursContiguously (jsOrStr rc.name rtplUnnamed) (recognitionCardHtml m) ∧
       occursContiguously (matchBadgeFor m) (recognitionCardHtml m) ∧
       occursContiguously (similarityTextOf m) (recognitionCardHtml m) ∧
       occursContiguously (distanceTextOf m) (recognitionCardHtml m) ∧
       occursContiguously (jsOrStr rc.identification_code tplNone)
         (recognitionCardHtml m) ∧
       occursContiguously (jsOrStr rc.age rtplUnknown) (recognitionCardHtml m) ∧
       occursContiguously (jsOrStr rc.gender rtplUnknown) (recognitionCardHtml m) ∧
       occursContiguously (if rc.sterilized then tplSterYes else tplSterNo)
         (recognitionCardHtml m) ∧
       occursContiguously (if rc.microchipped then rtplChipYes else rtplChipNo)
         (recognitionCardHtml m) ∧
       occursContiguously (jsOrStr rc.unique_markings tplNoDesc)
         (recognitionCardHtml m) ∧
       occursContiguously (jsOrStr rc.last_known_location tplNoLoc)
         (recognitionCardHtml m) ∧
       occursContiguously (jsOrStr rc.special_notes rtplNoNotes)
         (recognitionCardHtml m))) ∧
    (m.cat = none →
      (occursContiguously (matchBadgeFor m) (recognitionCardHtml m) ∧
       occursContiguously (similarityTextOf m) (recognitionCardHtml m) ∧
       occursContiguously (distanceTextOf m) (recognitionCardHtml m))) := by
  refine ⟨?_, ?_, ?_⟩
  · refine ⟨?_, ?_, ?_, ?_, ?_, ?_, ?_, ?_, ?_⟩ <;>
      simp only [catCardHtml, List.append_assoc] <;>
      repeat first
        | exact occursHead _ _
        | apply occursTail
  · intro rc hrc
    have hhtml : recognitionCardHtml m = recognitionCatCardHtml m rc := by
      simp [recognitionCardHtml, hrc]
    rw [hhtml]
    refine ⟨?_, ?_, ?_, ?_, ?_, ?_, ?_, ?_, ?_, ?_, ?_, ?_⟩ <;>
      simp only [recognitionCatCardHtml, List.append_assoc] <;>
      repeat first
        | exact occursHead _ _
        | apply occursTail
  · intro hnone
    have hhtml : recognitionCardHtml m = recognitionNoCatHtml m := by
      simp [recognitionCardHtml, hnone]
    rw [hhtml]
    refine ⟨?_, ?_, ?_⟩ <;>
      simp only [recognitionNoCatHtml, List.append_assoc] <;>
      repeat first
        | exact occursHead _ _
        | apply occursTail

theorem card_templates_render_fields_witness :
    occursContiguously (jsOrStr sampleRecCat.name rtplUnnamed)
      (recognitionCardHtml sampleMatch) :=
  (((card_templates_render_fields hardcodedFirstCat sampleMatch).2.1)
    sampleRecCat rfl).1


end CatWeb
